import Mathlib

/-!
Cart routes (`src/routes/carts.routes.js`).

A shallow embedding of the cart handlers of the Express router: the cart detail
operation `GET /:cid`, the purchase operation `GET /:cid/purchase` and the update
operation `PUT /:cid`.

The document store is explicit state (`Store`).  Each handler is a function from the
store and the request to the new store and the HTTP response.  Every `await` of a
handler can reject; a rejected call lands in the handler's `catch`, which answers 500
with the message of the error.

JavaScript numbers (prices, quantities, totals) are values of a type `Num` that the
embedding does not fix; the one arithmetic operation of the handlers, the `*` of the
cart detail, is the multiplication of `Num`.  Nothing is assumed of it, so every
statement holds of the runtime's double-precision product.

Document identifiers are ObjectIds, embedded as the natural number their 24
hexadecimal digits denote.  The path parameter of a request is a string, which the
model layer casts to an ObjectId before it queries.
-/

namespace CartsRoutes

variable {Num : Type}

/-! ## Documents -/

/-- A product of the catalog (collection `products`), with the fields the cart routes
and the product routes name. -/
structure Product (Num : Type) where
  id : Nat
  title : String
  price : Num
  stock : Num
deriving DecidableEq

/-- A user document; the purchase reads `email`. -/
structure User where
  id : Nat
  email : String
deriving DecidableEq

/-- One stored line of a cart: a reference to a product and a quantity. -/
structure CartLine (Num : Type) where
  pid : Nat
  quantity : Num
deriving DecidableEq

/-- A stored cart document.  `user` is a reference into the users collection,
`total` is the field `cart.total` the purchase reads (`none` when the document has no
such field, `undefined` in the source). -/
structure Cart (Num : Type) where
  id : Nat
  user : Nat
  products : List (CartLine Num)
  status : String
  total : Option Num
deriving DecidableEq

/-- The object literal `ticketDetails` built by the purchase handler. -/
structure TicketDetails (Num : Type) where
  code : String
  purchase_datetime : Nat
  amount : Option Num
  purchaser : String
deriving DecidableEq

/-- A persisted ticket: the details plus the identifier the store gives the new
document. -/
structure Ticket (Num : Type) where
  id : Nat
  code : String
  purchase_datetime : Nat
  amount : Option Num
  purchaser : String
deriving DecidableEq

/-- The document store behind the models: carts, catalog, users, tickets. -/
structure Store (Num : Type) where
  carts : List (Cart Num)
  products : List (Product Num)
  users : List User
  tickets : List (Ticket Num)
deriving DecidableEq

/-- The environment of one call: the clock read by `new Date()`; for each awaited
store operation the message of the error it rejects with, if the store fails it; and
the messages the model layer gives its own two refusals, the failed cast of an id and
the duplicate ticket code. -/
structure Env where
  now : Nat
  castError : String
  findError : Option String
  createTicketError : Option String
  duplicateError : String
  updateError : Option String
deriving DecidableEq

/-! ## ObjectIds -/

/-- The value of a hexadecimal digit, of either case. -/
def hexValue (c : Char) : Option Nat :=
  if '0' ≤ c ∧ c ≤ '9' then some (c.toNat - 48)
  else if 'a' ≤ c ∧ c ≤ 'f' then some (c.toNat - 87)
  else if 'A' ≤ c ∧ c ≤ 'F' then some (c.toNat - 55)
  else none

/-- The cast of a path parameter to an ObjectId: a string of 24 hexadecimal digits
(the shape the `pid` guard of `products.routes.js` tests with
`/^[a-fA-F0-9]{24}$/`) denotes an id, any other string does not. -/
def castObjectId (cid : String) : Option Nat :=
  if cid.length = 24 then
    cid.data.foldl (fun acc c =>
      match acc, hexValue c with
      | some n, some d => some (16 * n + d)
      | _, _ => none) (some 0)
  else none

/-- The filter `{ _id: cid }`: the path parameter casts to the id of the cart. -/
def matchesId (cid : String) (c : Cart Num) : Bool :=
  castObjectId cid == some c.id

/-! ## Populated documents -/

/-- A cart line after `populate`: the product document, or `null` when the reference
resolves to nothing. -/
structure PopulatedLine (Num : Type) where
  pid : Option (Product Num)
  quantity : Num
deriving DecidableEq

/-- A cart as returned by `findById(...).populate(...).populate("user")`. -/
structure PopulatedCart (Num : Type) where
  id : Nat
  user : Option User
  products : List (PopulatedLine Num)
  status : String
  total : Option Num
deriving DecidableEq

/-- The product a reference resolves to. -/
def findProduct (s : Store Num) (pid : Nat) : Option (Product Num) :=
  s.products.find? (fun p => p.id == pid)

/-- The user a reference resolves to. -/
def findUser (s : Store Num) (uid : Nat) : Option User :=
  s.users.find? (fun u => u.id == uid)

/-- The stored cart a path parameter denotes. -/
def findCart (s : Store Num) (cid : String) : Option (Cart Num) :=
  s.carts.find? (matchesId cid)

/-- Population of one line. -/
def populateLine (s : Store Num) (l : CartLine Num) : PopulatedLine Num :=
  { pid := findProduct s l.pid, quantity := l.quantity }

/-- Population of a cart: each line's product and the user. -/
def populate (s : Store Num) (c : Cart Num) : PopulatedCart Num :=
  { id := c.id
    user := findUser s c.user
    products := c.products.map (populateLine s)
    status := c.status
    total := c.total }

/-! ## Store operations used by the handlers -/

/-- Modelled from the spec: `cartModel.findById(cartId).populate(..)` (the model file
`models/cart.model.js` is not among the sources) is the cart store's
`load(cartId) -> Cart | not-found`.  A parameter that is no ObjectId fails the cast and
the call rejects; the call also rejects when the store fails it; else it yields the
populated cart or `null`. -/
def findById (env : Env) (s : Store Num) (cid : String) :
    Except String (Option (PopulatedCart Num)) :=
  match castObjectId cid with
  | none => .error env.castError
  | some _ =>
    match env.findError with
    | some m => .error m
    | none => .ok ((findCart s cid).map (populate s))

/-- A ticket with the given code is stored. -/
def codeStored (s : Store Num) (code : String) : Bool :=
  s.tickets.any (fun t => t.code == code)

/-- Modelled from the spec: `ticketDao.createTicket` (`dao/ticket.dao.js` is not among
the sources) is the ticket persistence `save(Ticket)`: durable before the call
returns, and on a duplicate `code` it must reject, never overwrite.  The call rejects
when the store fails it or when a ticket with the same code is stored, and then stores
nothing; else it appends the new document and returns it. -/
def createTicket (env : Env) (s : Store Num) (d : TicketDetails Num) :
    Except String (Store Num × Ticket Num) :=
  match env.createTicketError with
  | some m => .error m
  | none =>
    if codeStored s d.code then .error env.duplicateError
    else
      let t : Ticket Num :=
        { id := s.tickets.length
          code := d.code
          purchase_datetime := d.purchase_datetime
          amount := d.amount
          purchaser := d.purchaser }
      .ok ({ s with tickets := s.tickets ++ [t] }, t)

/-- The first cart satisfying `p` is replaced by its image under `f`; the others are
kept. -/
def updateFirst (p : Cart Num → Bool) (f : Cart Num → Cart Num) :
    List (Cart Num) → List (Cart Num)
  | [] => []
  | c :: cs => if p c then f c :: cs else c :: updateFirst p f cs

/-- Modelled from the spec: `cartModel.findByIdAndUpdate(cartId, { status })` (model
file not among the sources) is the cart store's status write; the source passes no
expected status, so the write is unconditional.  A rejected call writes nothing. -/
def findByIdAndUpdate (env : Env) (s : Store Num) (cid : String) (status : String) :
    Except String (Store Num) :=
  match castObjectId cid with
  | none => .error env.castError
  | some _ =>
    match env.updateError with
    | some m => .error m
    | none =>
      .ok { s with carts := updateFirst (matchesId cid)
                              (fun c => { c with status := status }) s.carts }

/-- Modelled from the spec: `cartModel.updateOne({ _id: cid }, { products: body })`
(model file not among the sources): the first cart with that id gets the request body
as its lines; the result carries the number of matched documents. -/
def updateOne (env : Env) (s : Store Num) (cid : String) (body : List (CartLine Num)) :
    Except String (Store Num × Nat) :=
  match castObjectId cid with
  | none => .error env.castError
  | some _ =>
    match env.updateError with
    | some m => .error m
    | none =>
      .ok ({ s with carts := updateFirst (matchesId cid)
                               (fun c => { c with products := body }) s.carts },
           if (findCart s cid).isSome then 1 else 0)

/-! ## Responses -/

/-- One entry of `cartProducts` in the cart detail response. -/
structure CartProduct (Num : Type) where
  title : String
  price : Num
  quantity : Num
  amount : Num
deriving DecidableEq

/-- The JSON bodies the three handlers send. -/
inductive Body (Num : Type) where
  | notFound (error : String)
  | failure (error : String)
  | cartDetail (cartProducts : List (CartProduct Num)) (cartId : String)
  | purchased (payload : Ticket Num)
  | updated (matchedCount : Nat)
deriving DecidableEq

/-- An HTTP response: status code and body. -/
structure Response (Num : Type) where
  status : Nat
  body : Body Num
deriving DecidableEq

/-- The message of the `TypeError` raised by reading property `prop` of `null`. -/
def nullReadError (prop : String) : String :=
  "Cannot read properties of null (reading \x27" ++ prop ++ "\x27)"

/-- The 404 message of both `GET /:cid` and `GET /:cid/purchase`. -/
def notFoundMessage (cartId : String) : String :=
  "The cart with id " ++ cartId ++ " does not exist"

/-! ## `GET /:cid` -/

/-- The callback of `cart.products.map`: reading `product.pid.title` of a line whose
product is `null` throws. -/
def cartProductOf [Mul Num] (product : PopulatedLine Num) :
    Except String (CartProduct Num) :=
  match product.pid with
  | none => .error (nullReadError "title")
  | some pid =>
    .ok { title := pid.title
          price := pid.price
          quantity := product.quantity
          amount := pid.price * product.quantity }

/-- The array method `map` with a callback that may throw: entries in order, the first
throw aborts. -/
def mapLines [Mul Num] : List (PopulatedLine Num) → Except String (List (CartProduct Num))
  | [] => .ok []
  | l :: ls =>
    match cartProductOf l with
    | .error m => .error m
    | .ok e =>
      match mapLines ls with
      | .error m => .error m
      | .ok es => .ok (e :: es)

/-- Handler of `GET /:cid`. -/
def getCart [Mul Num] (env : Env) (s : Store Num) (cartId : String) : Response Num :=
  match findById env s cartId with
  | .error m => ⟨500, .failure m⟩
  | .ok none => ⟨404, .notFound (notFoundMessage cartId)⟩
  | .ok (some cart) =>
    match mapLines cart.products with
    | .error m => ⟨500, .failure m⟩
    | .ok cartProducts => ⟨200, .cartDetail cartProducts cartId⟩

/-! ## `GET /:cid/purchase` -/

/-- The ticket code written in the source. -/
def ticketCode : String := "código_único_aquí"

/-- The status the purchase writes. -/
def comprado : String := "comprado"

/-- Handler of `GET /:cid/purchase`: the new store and the response.  Of the loaded
cart the handler reads `total` and `user.email` only; the lines and the status are not
read. -/
def purchase (env : Env) (s : Store Num) (cartId : String) : Store Num × Response Num :=
  match findById env s cartId with
  | .error m => (s, ⟨500, .failure m⟩)
  | .ok none => (s, ⟨404, .notFound (notFoundMessage cartId)⟩)
  | .ok (some cart) =>
    match cart.user with
    | none => (s, ⟨500, .failure (nullReadError "email")⟩)
    | some user =>
      let ticketDetails : TicketDetails Num :=
        { code := ticketCode
          purchase_datetime := env.now
          amount := cart.total
          purchaser := user.email }
      match createTicket env s ticketDetails with
      | .error m => (s, ⟨500, .failure m⟩)
      | .ok (s1, createdTicket) =>
        match findByIdAndUpdate env s1 cartId comprado with
        | .error m => (s1, ⟨500, .failure m⟩)
        | .ok s2 => (s2, ⟨201, .purchased createdTicket⟩)

/-! ## `PUT /:cid` -/

/-- Handler of `PUT /:cid`: the new store and the response. -/
def updateCart (env : Env) (s : Store Num) (cid : String) (body : List (CartLine Num)) :
    Store Num × Response Num :=
  match updateOne env s cid body with
  | .error m => (s, ⟨500, .failure m⟩)
  | .ok (s1, updatedCart) => (s1, ⟨200, .updated updatedCart⟩)

/-! ## Sequences of calls -/

/-- A sequence of purchase calls, one after the other, each with its environment and
cart id; the result is the final store. -/
def purchaseAll (s : Store Num) : List (Env × String) → Store Num
  | [] => s
  | (env, cid) :: rest => purchaseAll (purchase env s cid).1 rest

/-- A request to one of the three routes. -/
inductive Request (Num : Type) where
  | detail (env : Env) (cid : String)
  | purchase (env : Env) (cid : String)
  | update (env : Env) (cid : String) (body : List (CartLine Num))

/-- The store after one request. -/
def serveOne (s : Store Num) : Request Num → Store Num
  | .detail _ _ => s
  | .purchase env cid => (purchase env s cid).1
  | .update env cid body => (updateCart env s cid body).1

/-- The store after a sequence of requests, served one after the other. -/
def serve (s : Store Num) : List (Request Num) → Store Num
  | [] => s
  | r :: rest => serve (serveOne s r) rest

/-! ## Two purchase calls in flight

A handler runs until its next `await` and is resumed when the awaited store operation
has been carried out; between the suspensions of one call the other call may run.  A
call is therefore a small machine whose states are its suspension points. -/

/-- The point a purchase call has reached. -/
inductive Call (Num : Type) where
  | start
  | awaitingTicket (ticketDetails : TicketDetails Num)
  | awaitingUpdate (createdTicket : Ticket Num)
  | done (r : Response Num)
deriving DecidableEq

/-- One resumption of a purchase call on cart `cartId`: the awaited store operation is
carried out and the handler runs up to its next `await` or to its response. -/
def stepCall (env : Env) (cartId : String) (s : Store Num) : Call Num → Store Num × Call Num
  | .start =>
    match findById env s cartId with
    | .error m => (s, .done ⟨500, .failure m⟩)
    | .ok none => (s, .done ⟨404, .notFound (notFoundMessage cartId)⟩)
    | .ok (some cart) =>
      match cart.user with
      | none => (s, .done ⟨500, .failure (nullReadError "email")⟩)
      | some user =>
        (s, .awaitingTicket
              { code := ticketCode
                purchase_datetime := env.now
                amount := cart.total
                purchaser := user.email })
  | .awaitingTicket ticketDetails =>
    match createTicket env s ticketDetails with
    | .error m => (s, .done ⟨500, .failure m⟩)
    | .ok (s1, createdTicket) => (s1, .awaitingUpdate createdTicket)
  | .awaitingUpdate createdTicket =>
    match findByIdAndUpdate env s cartId comprado with
    | .error m => (s, .done ⟨500, .failure m⟩)
    | .ok s2 => (s2, .done ⟨201, .purchased createdTicket⟩)
  | .done r => (s, .done r)

/-- Two purchase calls on the same cart under a schedule: `true` resumes the first
call, `false` the second. -/
def runTwo (envA envB : Env) (cartId : String) :
    List Bool → Store Num × Call Num × Call Num → Store Num × Call Num × Call Num
  | [], st => st
  | true :: sched, (s, a, b) =>
    let r := stepCall envA cartId s a
    runTwo envA envB cartId sched (r.1, r.2, b)
  | false :: sched, (s, a, b) =>
    let r := stepCall envB cartId s b
    runTwo envA envB cartId sched (r.1, a, r.2)

/-- The number of suspension points a call has behind it (3 once it has responded). -/
def Call.progress : Call Num → Nat
  | .start => 0
  | .awaitingTicket _ => 1
  | .awaitingUpdate _ => 2
  | .done _ => 3

/-- A call has responded 201 with a ticket. -/
def Call.succeeded : Call Num → Bool
  | .done ⟨201, .purchased _⟩ => true
  | _ => false

/-- A call has responded 500 with the ticket store's refusal of a duplicate code. -/
def Call.refused (env : Env) (a : Call Num) : Prop :=
  a = .done ⟨500, .failure env.duplicateError⟩

/-- The number of tickets a call has persisted so far (0 or 1), for a call in a quiet
environment. -/
def Call.issued : Call Num → Nat
  | .awaitingUpdate _ => 1
  | .done ⟨201, .purchased _⟩ => 1
  | _ => 0

/-- What a call in a quiet environment can be: it carries the code of the source while
it waits for its ticket, and once it has responded it has succeeded or been refused. -/
def Call.sound (env : Env) : Call Num → Prop
  | .start => True
  | .awaitingTicket d => d.code = ticketCode
  | .awaitingUpdate _ => True
  | .done r => Call.succeeded (.done r) = true ∨ Call.refused env (.done r)

/-- No store operation of the call is failed by the store. -/
def Env.quiet (env : Env) : Prop :=
  env.findError = none ∧ env.createTicketError = none ∧ env.updateError = none

/-- The cart is stored and its user resolves. -/
def Ready (s : Store Num) (cid : String) : Prop :=
  ∃ c u, findCart s cid = some c ∧ findUser s c.user = some u

/-- The number (0 or 1) telling whether a ticket with the code of the source is
stored. -/
def stored (s : Store Num) : Nat :=
  if codeStored s ticketCode then 1 else 0

/-- Two purchase calls on the same cart, both from their start, under a schedule. -/
def runBoth (envA envB : Env) (cartId : String) (sched : List Bool) (s : Store Num) :
    Store Num × Call Num × Call Num :=
  runTwo envA envB cartId sched (s, .start, .start)

/-- If some cart is marked `comprado`, a ticket with the code of the source is
stored. -/
def ticketed (s : Store Num) : Prop :=
  (∃ c ∈ s.carts, c.status = comprado) → codeStored s ticketCode = true

/-- A schedule in which the two calls overlap: both load the cart before either
persists its ticket. -/
def overlapping : List Bool := [true, false, true, false, true, false]

/-! ## Vocabulary of the specification

The handlers compute none of the following; they are the notions the specification
states its properties with, written over the same store. -/

/-- Specification side: a line is resolvable when its product exists in the catalog
with stock at least the line quantity. -/
def lineResolvable (s : Store Int) (l : CartLine Int) : Bool :=
  match findProduct s l.pid with
  | none => false
  | some p => decide (l.quantity ≤ p.stock)

/-- Specification side: a line is rejected when its product is missing or the stock is
less than the line quantity. -/
def lineRejected (s : Store Int) (l : CartLine Int) : Bool :=
  match findProduct s l.pid with
  | none => true
  | some p => decide (p.stock < l.quantity)

/-- Specification side: unit price times quantity of one line (0 for a missing
product). -/
def specLineAmount (s : Store Int) (l : CartLine Int) : Int :=
  match findProduct s l.pid with
  | none => 0
  | some p => p.price * l.quantity

/-- Specification side: the sum over all lines of unit price times quantity. -/
def specAmount (s : Store Int) (ls : List (CartLine Int)) : Int :=
  (ls.map (specLineAmount s)).sum

/-- The status of the stored cart a path parameter denotes. -/
def statusOf (s : Store Num) (cid : String) : Option String :=
  (findCart s cid).map (fun c => c.status)

/-- The lines of the stored cart a path parameter denotes. -/
def itemsOf (s : Store Num) (cid : String) : Option (List (CartLine Num)) :=
  (findCart s cid).map (fun c => c.products)

/-- The ticket a purchase of cart `c` with resolved user `u` persists in store `s`. -/
def ticketFor (env : Env) (s : Store Num) (c : Cart Num) (u : User) : Ticket Num :=
  { id := s.tickets.length
    code := ticketCode
    purchase_datetime := env.now
    amount := c.total
    purchaser := u.email }

/-! ## Scenario data

Whole amounts, so that the runtime's arithmetic on them is exact. -/

/-- An environment in which the store fails no operation. -/
def envOk : Env :=
  { now := 0, castError := "Cast to ObjectId failed", findError := none,
    createTicketError := none, duplicateError := "E11000 duplicate key error",
    updateError := none }

/-- An environment in which the store fails the status write only. -/
def envUpdateFails : Env := { envOk with updateError := some "write failed" }

/-- An environment in which the store fails the ticket write. -/
def envTicketFails : Env := { envOk with createTicketError := some "write failed" }

/-- An environment in which the store fails the lookup. -/
def envFindFails : Env := { envOk with findError := some "read failed" }

/-- The path parameters denoting the three carts of `store0`. -/
def idC1 : String := "0000000000000000000000c1"

/-- The path parameter of the second cart. -/
def idC2 : String := "0000000000000000000000c2"

/-- The path parameter of the third cart. -/
def idC3 : String := "0000000000000000000000c3"

/-- A well-formed path parameter that denotes no cart of `store0`. -/
def idC9 : String := "0000000000000000000000c9"

/-- The catalog of the scenarios of the specification: `P1` (id `0xa1`) at 10 with
stock 5, `P2` at 25 with stock 1, `P3` at 5 with stock 1. -/
def catalog : List (Product Int) :=
  [ { id := 0xa1, title := "one", price := 10, stock := 5 },
    { id := 0xa2, title := "two", price := 25, stock := 1 },
    { id := 0xa3, title := "three", price := 5, stock := 1 } ]

/-- The first cart of `store0`: two resolvable lines, stored `total` 30. -/
def cartC1 : Cart Int :=
  { id := 0xc1, user := 0xb1, status := "active", total := some 30,
    products := [⟨0xa1, 2⟩, ⟨0xa2, 1⟩] }

/-- The second cart of `store0`: it asks for 3 of `P3`, whose stock is 1. -/
def cartC2 : Cart Int :=
  { id := 0xc2, user := 0xb1, status := "active", total := some 15,
    products := [⟨0xa3, 3⟩] }

/-- The third cart of `store0`. -/
def cartC3 : Cart Int :=
  { id := 0xc3, user := 0xb1, status := "active", total := some 10,
    products := [⟨0xa1, 1⟩] }

/-- A store with three active carts and no ticket. -/
def store0 : Store Int :=
  { carts := [cartC1, cartC2, cartC3]
    products := catalog
    users := [ { id := 0xb1, email := "u1@example.com" } ]
    tickets := [] }

/-- The store after the purchase of the third cart: that cart is marked `comprado` and
its ticket is stored. -/
def storeSold : Store Int := (purchase envOk store0 idC3).1

/-- The third cart once purchased. -/
def cartC3sold : Cart Int := { cartC3 with status := "comprado" }


/-! ## Lemmas on the store operations -/

theorem cast_of_findCart (s : Store Num) (cid : String) (c : Cart Num)
    (hc : findCart s cid = some c) : castObjectId cid = some c.id := by
  unfold findCart at hc
  have h := List.find?_some hc
  simpa [matchesId] using h

theorem find?_updateFirst (p : Cart Num → Bool) (f : Cart Num → Cart Num)
    (hf : ∀ c, p (f c) = p c) (l : List (Cart Num)) :
    (updateFirst p f l).find? p = (l.find? p).map f := by
  induction l with
  | nil => rfl
  | cons c cs ih =>
    by_cases hc : p c = true
    · have hfc : p (f c) = true := by rw [hf]; exact hc
      simp [updateFirst, hc, List.find?_cons, hfc]
    · have hc' : p c = false := by simpa using hc
      simp [updateFirst, hc', List.find?_cons, ih]

theorem updateFirst_eq_self (p : Cart Num → Bool) (f : Cart Num → Cart Num) (c : Cart Num)
    (hfc : f c = c) (l : List (Cart Num)) (h : l.find? p = some c) :
    updateFirst p f l = l := by
  induction l with
  | nil => rfl
  | cons d ds ih =>
    by_cases hd : p d = true
    · have : d = c := by simpa [List.find?_cons, hd] using h
      subst this
      simp [updateFirst, hd, hfc]
    · have hd' : p d = false := by simpa using hd
      have h' : ds.find? p = some c := by simpa [List.find?_cons, hd'] using h
      simp [updateFirst, hd', ih h']

theorem map_products_updateFirst (p : Cart Num → Bool) (st : String) (l : List (Cart Num)) :
    (updateFirst p (fun c => { c with status := st }) l).map (fun c => (c.id, c.products))
      = l.map (fun c => (c.id, c.products)) := by
  induction l with
  | nil => rfl
  | cons d ds ih =>
    by_cases hd : p d = true
    · simp [updateFirst, hd]
    · have hd' : p d = false := by simpa using hd
      simp [updateFirst, hd', ih]

/-- The outcome of a purchase when the cart is stored, its user resolves and no store
operation rejects. -/
theorem purchase_ok (env : Env) (s : Store Num) (cid : String) (c : Cart Num) (u : User)
    (hf : env.findError = none) (hc : findCart s cid = some c)
    (hu : findUser s c.user = some u) (hk : env.createTicketError = none)
    (hd : codeStored s ticketCode = false) (hw : env.updateError = none) :
    purchase env s cid =
      ({ s with
          tickets := s.tickets ++ [ticketFor env s c u]
          carts := updateFirst (matchesId cid)
                     (fun d => { d with status := comprado }) s.carts },
       ⟨201, .purchased (ticketFor env s c u)⟩) := by
  have hcast := cast_of_findCart s cid c hc
  simp [purchase, findById, hcast, hf, hc, populate, hu, createTicket, hk, hd,
    findByIdAndUpdate, hw, ticketFor]

theorem statusOf_after_update (s : Store Num) (cid : String) (c : Cart Num)
    (ts : List (Ticket Num)) (hc : findCart s cid = some c) :
    statusOf { s with
                tickets := ts
                carts := updateFirst (matchesId cid)
                     (fun d => { d with status := comprado }) s.carts } cid
      = some comprado := by
  have h := find?_updateFirst (matchesId cid)
    (fun d : Cart Num => { d with status := comprado }) (fun _ => rfl) s.carts
  unfold statusOf findCart at *
  simp only [h, hc]
  rfl

/-- The three ways a purchase call can end. -/
theorem purchase_cases (env : Env) (s : Store Num) (cid : String) :
    ((purchase env s cid).1 = s ∧
      ((purchase env s cid).2.status = 500 ∨ (purchase env s cid).2.status = 404)) ∨
    (∃ c u m, env.findError = none ∧ findCart s cid = some c ∧
      findUser s c.user = some u ∧
      env.createTicketError = none ∧ codeStored s ticketCode = false ∧
      env.updateError = some m ∧
      purchase env s cid =
        ({ s with tickets := s.tickets ++ [ticketFor env s c u] }, ⟨500, .failure m⟩)) ∨
    (∃ c u, env.findError = none ∧ findCart s cid = some c ∧
      findUser s c.user = some u ∧
      env.createTicketError = none ∧ codeStored s ticketCode = false ∧
      env.updateError = none ∧
      purchase env s cid =
        ({ s with
            tickets := s.tickets ++ [ticketFor env s c u]
            carts := updateFirst (matchesId cid)
                       (fun d => { d with status := comprado }) s.carts },
         ⟨201, .purchased (ticketFor env s c u)⟩)) := by
  cases hcast : castObjectId cid with
  | none => left; simp [purchase, findById, hcast]
  | some n =>
  cases hf : env.findError with
  | some m => left; simp [purchase, findById, hcast, hf]
  | none =>
    cases hc : findCart s cid with
    | none => left; simp [purchase, findById, hcast, hf, hc]
    | some c =>
      cases hu : findUser s c.user with
      | none => left; simp [purchase, findById, hcast, hf, hc, populate, hu]
      | some u =>
        cases hk : env.createTicketError with
        | some m =>
          left; simp [purchase, findById, hcast, hf, hc, populate, hu, createTicket, hk]
        | none =>
          cases hd : codeStored s ticketCode with
          | true =>
            left
            simp [purchase, findById, hcast, hf, hc, populate, hu, createTicket, hk, hd]
          | false =>
            cases hw : env.updateError with
            | some m =>
              right; left
              refine ⟨c, u, m, rfl, rfl, hu, rfl, rfl, rfl, ?_⟩
              simp [purchase, findById, hcast, hf, hc, populate, hu, createTicket, hk, hd,
                findByIdAndUpdate, hw, ticketFor]
            | none =>
              right; right
              exact ⟨c, u, rfl, rfl, hu, rfl, rfl, rfl,
                purchase_ok env s cid c u hf hc hu hk hd hw⟩

/-- When a ticket with the code of the source is stored, the purchase of a stored cart
answers 500 and leaves the store as it was. -/
theorem purchase_refused (env : Env) (s : Store Num) (cid : String) (c : Cart Num)
    (hc : findCart s cid = some c) (hd : codeStored s ticketCode = true) :
    (purchase env s cid).2.status = 500 ∧ (purchase env s cid).1 = s ∧
    (env.findError = none → env.createTicketError = none →
      ∀ u, findUser s c.user = some u →
        (purchase env s cid).2 = ⟨500, .failure env.duplicateError⟩) := by
  have hcast := cast_of_findCart s cid c hc
  refine ⟨?_, ?_, ?_⟩
  · cases hf : env.findError with
    | some m => simp [purchase, findById, hcast, hf]
    | none =>
      cases hu : findUser s c.user with
      | none => simp [purchase, findById, hcast, hf, hc, populate, hu]
      | some u =>
        cases hk : env.createTicketError with
        | some m => simp [purchase, findById, hcast, hf, hc, populate, hu, createTicket, hk]
        | none => simp [purchase, findById, hcast, hf, hc, populate, hu, createTicket, hk, hd]
  · rcases purchase_cases env s cid with ⟨h, _⟩ | ⟨_, _, _, _, _, _, _, hd1, _⟩ |
      ⟨_, _, _, _, _, _, hd1, _⟩
    · exact h
    · rw [hd] at hd1; cases hd1
    · rw [hd] at hd1; cases hd1
  · intro hf hk u hu
    simp [purchase, findById, hcast, hf, hc, populate, hu, createTicket, hk, hd]

/-! ## Purchase: amount and status -/

/-- C1 fails as stated: cart `C1` of `store0` is active, both its lines are resolvable
and their prices times quantities sum to 45, yet the purchase succeeds with a ticket
whose amount is the stored `total` 30. -/
theorem purchase_amount_is_not_line_sum :
    findCart store0 idC1 = some cartC1 ∧ cartC1.status = "active" ∧
    (∀ l ∈ cartC1.products, lineResolvable store0 l = true) ∧
    specAmount store0 cartC1.products = 45 ∧
    (purchase envOk store0 idC1).2
      = ⟨201, .purchased ⟨0, ticketCode, 0, some 30, "u1@example.com"⟩⟩ ∧
    (some 30 : Option Int) ≠ some (specAmount store0 cartC1.products) := by
  decide

/-- C1 as amended: for every stored cart whose user resolves, when no store operation
rejects, the purchase answers 201 with a ticket whose amount is the stored `total` of
the cart, whose purchaser is the user's email, and afterwards the cart's status is
`comprado`. -/
theorem purchase_amount_is_cart_total (env : Env) (s : Store Num) (cid : String)
    (c : Cart Num) (u : User) (hf : env.findError = none) (hc : findCart s cid = some c)
    (hu : findUser s c.user = some u) (hk : env.createTicketError = none)
    (hd : codeStored s ticketCode = false) (hw : env.updateError = none) :
    ∃ t : Ticket Num, (purchase env s cid).2 = ⟨201, .purchased t⟩ ∧
      t.amount = c.total ∧ t.purchaser = u.email ∧
      (purchase env s cid).1.tickets = s.tickets ++ [t] ∧
      statusOf (purchase env s cid).1 cid = some comprado := by
  refine ⟨ticketFor env s c u, ?_, rfl, rfl, ?_, ?_⟩
  · rw [purchase_ok env s cid c u hf hc hu hk hd hw]
  · rw [purchase_ok env s cid c u hf hc hu hk hd hw]
  · rw [purchase_ok env s cid c u hf hc hu hk hd hw]
    exact statusOf_after_update s cid c _ hc

/-- C1, amended statement, at cart `C1` of `store0` in a quiet environment. -/
theorem purchase_amount_is_cart_total_witness :
    ∃ t : Ticket Int, (purchase envOk store0 idC1).2 = ⟨201, .purchased t⟩ ∧
      t.amount = cartC1.total ∧ t.purchaser = "u1@example.com" ∧
      (purchase envOk store0 idC1).1.tickets = store0.tickets ++ [t] ∧
      statusOf (purchase envOk store0 idC1).1 idC1 = some comprado :=
  purchase_amount_is_cart_total envOk store0 idC1 cartC1 ⟨0xb1, "u1@example.com"⟩
    (by decide) (by decide) (by decide) (by decide) (by decide) (by decide)

/-! ## Purchase of a cart with a rejected line -/

/-- C3 fails as stated: cart `C2` of `store0` is active and asks for 3 of `P3`, whose
stock is 1; the purchase answers 201, persists a ticket and marks the cart
`comprado`. -/
theorem purchase_ignores_stock :
    findCart store0 idC2 = some cartC2 ∧ cartC2.status = "active" ∧
    (∃ l ∈ cartC2.products, lineRejected store0 l = true) ∧
    (purchase envOk store0 idC2).2
      = ⟨201, .purchased ⟨0, ticketCode, 0, some 15, "u1@example.com"⟩⟩ ∧
    (purchase envOk store0 idC2).1.tickets.length = 1 ∧
    statusOf (purchase envOk store0 idC2).1 idC2 = some comprado := by
  decide

/-- C3 as amended: for every stored cart with a rejected line (product missing or stock
below the quantity) whose user resolves, when no store operation rejects, the purchase
does not look at the lines: it answers 201, persists one ticket and marks the cart
`comprado`. -/
theorem purchase_with_rejected_line (env : Env) (s : Store Int) (cid : String)
    (c : Cart Int) (u : User) (_hr : ∃ l ∈ c.products, lineRejected s l = true)
    (hf : env.findError = none) (hc : findCart s cid = some c)
    (hu : findUser s c.user = some u) (hk : env.createTicketError = none)
    (hd : codeStored s ticketCode = false) (hw : env.updateError = none) :
    ∃ t : Ticket Int, (purchase env s cid).2 = ⟨201, .purchased t⟩ ∧
      (purchase env s cid).1.tickets = s.tickets ++ [t] ∧
      statusOf (purchase env s cid).1 cid = some comprado := by
  refine ⟨ticketFor env s c u, ?_, ?_, ?_⟩
  · rw [purchase_ok env s cid c u hf hc hu hk hd hw]
  · rw [purchase_ok env s cid c u hf hc hu hk hd hw]
  · rw [purchase_ok env s cid c u hf hc hu hk hd hw]
    exact statusOf_after_update s cid c _ hc

/-- C3, amended statement, at cart `C2` of `store0`, whose line exceeds the stock. -/
theorem purchase_with_rejected_line_witness :
    ∃ t : Ticket Int, (purchase envOk store0 idC2).2 = ⟨201, .purchased t⟩ ∧
      (purchase envOk store0 idC2).1.tickets = store0.tickets ++ [t] ∧
      statusOf (purchase envOk store0 idC2).1 idC2 = some comprado :=
  purchase_with_rejected_line envOk store0 idC2 cartC2 ⟨0xb1, "u1@example.com"⟩
    (by decide) (by decide) (by decide) (by decide) (by decide) (by decide) (by decide)

/-! ## Error responses and the store -/

/-- C5 fails as stated: when the status write rejects, the purchase of cart `C1` of
`store0` answers 500, the cart is still active, and the ticket created before the
write is in the store. -/
theorem failed_purchase_keeps_ticket :
    (purchase envUpdateFails store0 idC1).2 = ⟨500, .failure "write failed"⟩ ∧
    statusOf (purchase envUpdateFails store0 idC1).1 idC1 = some "active" ∧
    store0.tickets = [] ∧
    (purchase envUpdateFails store0 idC1).1.tickets
      = [⟨0, ticketCode, 0, some 30, "u1@example.com"⟩] := by
  decide

/-- C5 as amended: for every purchase call that ends in an error response, every cart
is as it was before the call, and either the whole store is unchanged or the error is
that of the status write after a successful ticket creation, in which case exactly that
one ticket has been added to the store. -/
theorem failed_purchase_store (env : Env) (s : Store Num) (cid : String)
    (herr : (purchase env s cid).2.status ≠ 201) :
    (purchase env s cid).1.carts = s.carts ∧
    ((purchase env s cid).1 = s ∨
      (env.createTicketError = none ∧ env.updateError ≠ none ∧
        ∃ t : Ticket Num,
          (purchase env s cid).1 = { s with tickets := s.tickets ++ [t] })) := by
  rcases purchase_cases env s cid with ⟨h, _⟩ | ⟨c, u, m, _, _, _, hk, _, hw, h⟩ |
    ⟨c, u, _, _, _, _, _, _, h⟩
  · exact ⟨by rw [h], Or.inl h⟩
  · refine ⟨by rw [h], Or.inr ⟨hk, by simp [hw], ticketFor env s c u, by rw [h]⟩⟩
  · rw [h] at herr; exact absurd rfl herr

/-- C5, amended statement, at cart `C1` of `store0` when the status write rejects. -/
theorem failed_purchase_store_witness :
    (purchase envUpdateFails store0 idC1).1.carts = store0.carts ∧
    ((purchase envUpdateFails store0 idC1).1 = store0 ∨
      (envUpdateFails.createTicketError = none ∧ envUpdateFails.updateError ≠ none ∧
        ∃ t : Ticket Int, (purchase envUpdateFails store0 idC1).1
          = { store0 with tickets := store0.tickets ++ [t] })) :=
  failed_purchase_store envUpdateFails store0 idC1 (by decide)

/-! ## Failed ticket creation -/

/-- C6: for every stored cart, if `createTicket` rejects, the purchase answers 500 and
the store is unchanged, so the status of the cart is what it was; and in every call
that changes a cart, a ticket has been created in that call. -/
theorem ticket_failure_keeps_cart (env : Env) (s : Store Num) (cid : String)
    (c : Cart Num) (m : String) (hc : findCart s cid = some c)
    (hk : env.createTicketError = some m) :
    (purchase env s cid).2.status = 500 ∧ (purchase env s cid).1 = s ∧
    statusOf (purchase env s cid).1 cid = some c.status ∧
    ∀ (env1 : Env) (cid1 : String), (purchase env1 s cid1).1.carts ≠ s.carts →
      ∃ t : Ticket Num, (purchase env1 s cid1).1.tickets = s.tickets ++ [t] ∧
        (purchase env1 s cid1).2 = ⟨201, .purchased t⟩ := by
  have hcast := cast_of_findCart s cid c hc
  have hs : (purchase env s cid).2.status = 500 ∧ (purchase env s cid).1 = s := by
    rcases purchase_cases env s cid with ⟨h, h5 | h4⟩ | ⟨_, _, _, _, _, _, hk1, _, _, _⟩ |
      ⟨_, _, _, _, _, hk1, _, _, _⟩
    · exact ⟨h5, h⟩
    · exfalso
      cases hf : env.findError with
      | some m1 => simp [purchase, findById, hcast, hf] at h4
      | none =>
        cases hu : findUser s c.user with
        | none => simp [purchase, findById, hcast, hf, hc, populate, hu] at h4
        | some u =>
          simp [purchase, findById, hcast, hf, hc, populate, hu, createTicket, hk] at h4
    · rw [hk] at hk1; cases hk1
    · rw [hk] at hk1; cases hk1
  refine ⟨hs.1, hs.2, ?_, ?_⟩
  · rw [hs.2]; simp [statusOf, hc]
  · intro env1 cid1 hne
    rcases purchase_cases env1 s cid1 with ⟨h, _⟩ | ⟨c, u, m, _, _, _, _, _, _, h⟩ |
      ⟨c, u, _, _, _, _, _, _, h⟩
    · rw [h] at hne; exact absurd rfl hne
    · rw [h] at hne; exact absurd rfl hne
    · exact ⟨ticketFor env1 s c u, by rw [h], by rw [h]⟩

/-- C6 at cart `C1` of `store0` when the ticket write rejects. -/
theorem ticket_failure_keeps_cart_witness :
    (purchase envTicketFails store0 idC1).2.status = 500 ∧
    (purchase envTicketFails store0 idC1).1 = store0 ∧
    statusOf (purchase envTicketFails store0 idC1).1 idC1 = some cartC1.status ∧
    ∀ (env1 : Env) (cid1 : String), (purchase env1 store0 cid1).1.carts ≠ store0.carts →
      ∃ t : Ticket Int, (purchase env1 store0 cid1).1.tickets = store0.tickets ++ [t] ∧
        (purchase env1 store0 cid1).2 = ⟨201, .purchased t⟩ :=
  ticket_failure_keeps_cart envTicketFails store0 idC1 cartC1 "write failed"
    (by decide) (by decide)

/-- The purchase leaves the id and the lines of every stored cart as they were. -/
theorem purchase_keeps_items (env : Env) (s : Store Num) (cid : String) :
    (purchase env s cid).1.carts.map (fun c => (c.id, c.products))
      = s.carts.map (fun c => (c.id, c.products)) := by
  rcases purchase_cases env s cid with ⟨h, _⟩ | ⟨c, u, m, _, _, _, _, _, _, h⟩ |
    ⟨c, u, _, _, _, _, _, _, h⟩
  · rw [h]
  · rw [h]
  · rw [h]; exact map_products_updateFirst _ _ _

/-! ## Items of a purchased cart -/

/-- C7 fails as stated: in `storeSold` the third cart has status `comprado` and one
line; the update operation with an empty body answers 200 and leaves the cart without
lines. -/
theorem update_changes_purchased_cart :
    statusOf storeSold idC3 = some comprado ∧
    itemsOf storeSold idC3 = some [⟨0xa1, 1⟩] ∧
    (updateCart envOk storeSold idC3 []).2 = ⟨200, .updated 1⟩ ∧
    itemsOf (updateCart envOk storeSold idC3 []).1 idC3 = some [] ∧
    statusOf (updateCart envOk storeSold idC3 []).1 idC3 = some comprado := by
  decide

/-- C7 as amended: for every stored cart whose status is `comprado`, the purchase
operation (of any cart) leaves the lines of every cart as they were, while the update
operation, when its write does not reject, answers 200 and replaces the lines of the
cart by the request body, whatever the body. -/
theorem update_replaces_items (env : Env) (s : Store Num) (cid : String) (c : Cart Num)
    (body : List (CartLine Num)) (_hs : c.status = comprado)
    (hc : findCart s cid = some c) (hw : env.updateError = none) :
    (updateCart env s cid body).2 = ⟨200, .updated 1⟩ ∧
    itemsOf (updateCart env s cid body).1 cid = some body ∧
    ∀ (env1 : Env) (cid1 : String),
      (purchase env1 s cid1).1.carts.map (fun d => (d.id, d.products))
        = s.carts.map (fun d => (d.id, d.products)) := by
  have hcast := cast_of_findCart s cid c hc
  refine ⟨?_, ?_, fun env1 cid1 => purchase_keeps_items env1 s cid1⟩
  · simp [updateCart, updateOne, hcast, hw, hc]
  · have h := find?_updateFirst (matchesId cid)
      (fun d : Cart Num => { d with products := body }) (fun _ => rfl) s.carts
    unfold findCart at hc
    simp [updateCart, updateOne, hcast, hw, itemsOf, findCart, h, hc]

/-- C7, amended statement, at the purchased third cart of `storeSold`. -/
theorem update_replaces_items_witness :
    (updateCart envOk storeSold idC3 [⟨0xa2, 7⟩]).2 = ⟨200, .updated 1⟩ ∧
    itemsOf (updateCart envOk storeSold idC3 [⟨0xa2, 7⟩]).1 idC3 = some [⟨0xa2, 7⟩] ∧
    ∀ (env1 : Env) (cid1 : String),
      (purchase env1 storeSold cid1).1.carts.map (fun d => (d.id, d.products))
        = storeSold.carts.map (fun d => (d.id, d.products)) :=
  update_replaces_items envOk storeSold idC3 cartC3sold [⟨0xa2, 7⟩] (by decide)
    (by decide) (by decide)

/-! ## Purchase of a cart already purchased -/

theorem mem_updateFirst (p : Cart Num → Bool) (f : Cart Num → Cart Num)
    (l : List (Cart Num)) (x : Cart Num) (hx : x ∈ updateFirst p f l) :
    x ∈ l ∨ ∃ c ∈ l, x = f c := by
  induction l with
  | nil => simp [updateFirst] at hx
  | cons d ds ih =>
    by_cases hd : p d = true
    · have hx' : x = f d ∨ x ∈ ds := by
        simpa [updateFirst, hd] using hx
      rcases hx' with h1 | h1
      · exact Or.inr ⟨d, List.mem_cons_self _ _, h1⟩
      · exact Or.inl (List.mem_cons_of_mem _ h1)
    · have hd' : p d = false := by simpa using hd
      have hx' : x = d ∨ x ∈ updateFirst p f ds := by
        simpa [updateFirst, hd'] using hx
      rcases hx' with h1 | h1
      · exact Or.inl (by rw [h1]; exact List.mem_cons_self _ _)
      · rcases ih h1 with h | ⟨c, hc, h⟩
        · exact Or.inl (List.mem_cons_of_mem _ h)
        · exact Or.inr ⟨c, List.mem_cons_of_mem _ hc, h⟩

theorem codeStored_append (s : Store Num) (t : Ticket Num) (ht : t.code = ticketCode)
    (cs : List (Cart Num)) :
    codeStored { s with tickets := s.tickets ++ [t], carts := cs } ticketCode = true := by
  simp [codeStored, List.any_append, ht]

/-- The purchase keeps the link between marked carts and the stored ticket. -/
theorem purchase_ticketed (env : Env) (s : Store Num) (cid : String) (h : ticketed s) :
    ticketed (purchase env s cid).1 := by
  rcases purchase_cases env s cid with ⟨e, _⟩ | ⟨c, u, m, _, _, _, _, _, _, e⟩ |
    ⟨c, u, _, _, _, _, _, _, e⟩
  · rw [e]; exact h
  · rw [e]; intro _
    exact codeStored_append s (ticketFor env s c u) rfl s.carts
  · rw [e]; intro _
    exact codeStored_append s (ticketFor env s c u) rfl _

/-- The update keeps the link between marked carts and the stored ticket. -/
theorem updateCart_ticketed (env : Env) (s : Store Num) (cid : String)
    (body : List (CartLine Num)) (h : ticketed s) :
    ticketed (updateCart env s cid body).1 := by
  cases hcast : castObjectId cid with
  | none => simpa [updateCart, updateOne, hcast] using h
  | some n =>
    cases hw : env.updateError with
    | some m => simpa [updateCart, updateOne, hcast, hw] using h
    | none =>
      simp only [updateCart, updateOne, hcast, hw]
      intro ⟨x, hx, hxs⟩
      have : ∃ c ∈ s.carts, c.status = comprado := by
        rcases mem_updateFirst _ _ _ x hx with hm | ⟨c, hc, hxc⟩
        · exact ⟨x, hm, hxs⟩
        · refine ⟨c, hc, ?_⟩
          rw [hxc] at hxs
          exact hxs
      exact h this

theorem serve_ticketed (reqs : List (Request Num)) (s : Store Num) (h : ticketed s) :
    ticketed (serve s reqs) := by
  induction reqs generalizing s with
  | nil => exact h
  | cons r rest ih =>
    cases r with
    | detail env cid => exact ih s h
    | purchase env cid => exact ih _ (purchase_ticketed env s cid h)
    | update env cid body => exact ih _ (updateCart_ticketed env s cid body h)

/-- C2 fails as stated in the kind of the error: in `storeSold` the third cart has
status `comprado`, and purchasing it again answers 500 with the ticket store's refusal
of the duplicate code, the very response the still active first cart gets in that
store; the response says nothing of the cart's status. -/
theorem repeated_purchase_error_kind :
    statusOf storeSold idC3 = some comprado ∧
    statusOf storeSold idC1 = some "active" ∧
    purchase envOk storeSold idC3
      = (storeSold, ⟨500, .failure "E11000 duplicate key error"⟩) ∧
    purchase envOk storeSold idC1
      = (storeSold, ⟨500, .failure "E11000 duplicate key error"⟩) := by
  decide

/-- C2 as amended: in every store that requests to the routes have produced from one
without purchased carts, for every stored cart whose status is `comprado`, calling the
purchase again answers 500 and leaves the whole store, and so the stored tickets,
exactly as it was; when the store fails no operation and the user resolves, the error
is the ticket store's refusal of the duplicate code, not a cart-not-active error. -/
theorem repeated_purchase_fails (s0 : Store Num) (reqs : List (Request Num)) (env : Env)
    (cid : String) (c : Cart Num)
    (h0 : ∀ d ∈ s0.carts, d.status ≠ comprado)
    (hc : findCart (serve s0 reqs) cid = some c) (hs : c.status = comprado) :
    (purchase env (serve s0 reqs) cid).2.status = 500 ∧
    (purchase env (serve s0 reqs) cid).1 = serve s0 reqs ∧
    (env.findError = none → env.createTicketError = none →
      ∀ u, findUser (serve s0 reqs) c.user = some u →
        (purchase env (serve s0 reqs) cid).2 = ⟨500, .failure env.duplicateError⟩) := by
  have ht0 : ticketed s0 := fun ⟨d, hd, hds⟩ => absurd hds (h0 d hd)
  have ht : ticketed (serve s0 reqs) := serve_ticketed reqs s0 ht0
  have hmem : c ∈ (serve s0 reqs).carts := by
    unfold findCart at hc
    exact List.mem_of_find?_eq_some hc
  exact purchase_refused env (serve s0 reqs) cid c hc (ht ⟨c, hmem, hs⟩)

/-- C2, amended statement: the third cart of `store0` is purchased, then purchased
again. -/
theorem repeated_purchase_fails_witness :
    (purchase envOk (serve store0 [.purchase envOk idC3]) idC3).2.status = 500 ∧
    (purchase envOk (serve store0 [.purchase envOk idC3]) idC3).1
      = serve store0 [.purchase envOk idC3] ∧
    (envOk.findError = none → envOk.createTicketError = none →
      ∀ u, findUser (serve store0 [.purchase envOk idC3]) cartC3sold.user = some u →
        (purchase envOk (serve store0 [.purchase envOk idC3]) idC3).2
          = ⟨500, .failure envOk.duplicateError⟩) :=
  repeated_purchase_fails store0 [.purchase envOk idC3] envOk idC3 cartC3sold
    (by decide) (by decide) (by decide)

/-! ## Ticket codes -/

/-- The purchase keeps the codes of the stored tickets pairwise different. -/
theorem purchase_codes_distinct (env : Env) (s : Store Num) (cid : String)
    (h : s.tickets.Pairwise (fun a b => a.code ≠ b.code)) :
    (purchase env s cid).1.tickets.Pairwise (fun a b => a.code ≠ b.code) := by
  have key : codeStored s ticketCode = false → ∀ t : Ticket Num, t.code = ticketCode →
      (s.tickets ++ [t]).Pairwise (fun a b => a.code ≠ b.code) := by
    intro hd t ht
    rw [List.pairwise_append]
    refine ⟨h, List.pairwise_singleton _ _, ?_⟩
    intro a ha b hb
    rw [List.mem_singleton] at hb
    rw [hb, ht]
    intro hab
    have : codeStored s ticketCode = true := by
      simp only [codeStored, List.any_eq_true]
      exact ⟨a, ha, by simp [hab]⟩
    rw [hd] at this
    cases this
  rcases purchase_cases env s cid with ⟨e, _⟩ | ⟨c, u, m, _, _, _, _, hd, _, e⟩ |
    ⟨c, u, _, _, _, _, hd, _, e⟩
  · rw [e]; exact h
  · rw [e]; exact key hd _ rfl
  · rw [e]; exact key hd _ rfl

/-- C4: for every sequence of purchase calls starting from a store with no tickets, any
two distinct tickets in the store afterwards have different codes. -/
theorem ticket_codes_distinct (reqs : List (Env × String)) (s : Store Num)
    (h0 : s.tickets = []) :
    (purchaseAll s reqs).tickets.Pairwise (fun a b => a.code ≠ b.code) := by
  have gen : ∀ (reqs : List (Env × String)) (s : Store Num),
      s.tickets.Pairwise (fun a b => a.code ≠ b.code) →
      (purchaseAll s reqs).tickets.Pairwise (fun a b => a.code ≠ b.code) := by
    intro reqs
    induction reqs with
    | nil => intro s h; exact h
    | cons r rest ih =>
      intro s h
      obtain ⟨env, cid⟩ := r
      exact ih _ (purchase_codes_distinct env s cid h)
  exact gen reqs s (by rw [h0]; exact List.Pairwise.nil)

/-- C4 at `store0`: the purchase of the first cart, then of the second. -/
theorem ticket_codes_distinct_witness :
    (purchaseAll store0 [(envOk, idC1), (envOk, idC2)]).tickets.Pairwise
      (fun a b => a.code ≠ b.code) :=
  ticket_codes_distinct [(envOk, idC1), (envOk, idC2)] store0 (by decide)

/-! ## Purchase of an unknown cart -/

/-- A path parameter that is no ObjectId: the lookup rejects and the purchase answers
500 with the cast error, the store unchanged. -/
theorem purchase_cast_error (env : Env) (s : Store Num) (cid : String)
    (h : castObjectId cid = none) :
    purchase env s cid = (s, ⟨500, .failure env.castError⟩) := by
  simp [purchase, findById, h]

/-- A well-formed id that matches no stored cart, the lookup completing: 404 and the
store unchanged. -/
theorem purchase_unknown_objectId (env : Env) (s : Store Num) (cid : String) (n : Nat)
    (hcast : castObjectId cid = some n)
    (hf : env.findError = none) (hno : ∀ c ∈ s.carts, c.id ≠ n) :
    purchase env s cid = (s, ⟨404, .notFound (notFoundMessage cid)⟩) := by
  have hc : findCart s cid = none := by
    unfold findCart
    rw [List.find?_eq_none]
    intro c hcm
    have := hno c hcm
    simp [matchesId, hcast]
    exact fun e => this e.symm
  simp [purchase, findById, hcast, hf, hc]

/-- C8 on the code: the id `C9` matches no cart of `store0`, and the purchase answers
500 with the cast error of the lookup, not 404; no ticket is created and no cart is
changed. -/
theorem purchase_unknown_cart_is_500 :
    (∀ c ∈ store0.carts, matchesId "C9" c = false) ∧
    purchase envOk store0 "C9" = (store0, ⟨500, .failure "Cast to ObjectId failed"⟩) ∧
    purchase envOk store0 idC9
      = (store0, ⟨404, .notFound "The cart with id 0000000000000000000000c9 does not exist"⟩) := by
  decide

/-! ## Cart detail -/

/-- With all lines resolving, `map` yields one entry per line, in order. -/
theorem mapLines_populated [Mul Num] (s : Store Num) (ls : List (CartLine Num))
    (h : ∀ l ∈ ls, (findProduct s l.pid).isSome = true) :
    ∃ es : List (CartProduct Num), mapLines (ls.map (populateLine s)) = .ok es ∧
      es.length = ls.length ∧
      ∀ (i : Nat) (l : CartLine Num), ls[i]? = some l →
        ∃ p : Product Num, findProduct s l.pid = some p ∧
          es[i]? = some { title := p.title, price := p.price, quantity := l.quantity,
                          amount := p.price * l.quantity } := by
  induction ls with
  | nil => exact ⟨[], rfl, rfl, by intro i l hl; simp at hl⟩
  | cons l ls ih =>
    obtain ⟨es, hes, hlen, hget⟩ := ih (fun x hx => h x (List.mem_cons_of_mem _ hx))
    have hl := h l (List.mem_cons_self _ _)
    obtain ⟨p, hp⟩ := Option.isSome_iff_exists.mp hl
    refine ⟨{ title := p.title, price := p.price, quantity := l.quantity,
              amount := p.price * l.quantity } :: es, ?_, ?_, ?_⟩
    · simp [mapLines, cartProductOf, populateLine, hp, hes]
    · simp [hlen]
    · intro i x hx
      cases i with
      | zero =>
        simp only [List.getElem?_cons_zero, Option.some.injEq] at hx
        subst hx
        exact ⟨p, hp, by simp⟩
      | succ j =>
        simp only [List.getElem?_cons_succ] at hx
        obtain ⟨q, hq, hq2⟩ := hget j x hx
        exact ⟨q, hq, by simpa using hq2⟩

/-- C10 fails as stated: the first cart of `store0` is stored and both its lines
resolve to a product, yet when the store fails the lookup the cart detail operation
answers 500. -/
theorem cart_detail_lookup_fails :
    findCart store0 idC1 = some cartC1 ∧
    (∀ l ∈ cartC1.products, (findProduct store0 l.pid).isSome = true) ∧
    getCart envFindFails store0 idC1 = ⟨500, .failure "read failed"⟩ := by
  decide

/-- C10 as amended: for every stored cart whose lines all resolve to a product, when
the lookup completes, the cart detail operation answers 200 with a `cartProducts` list
of the length of the cart lines whose i-th entry carries the title and price of the
i-th line product, the i-th line quantity, and as amount the product `*` of that price
and that quantity, in the arithmetic of the runtime. -/
theorem cart_detail_entries [Mul Num] (env : Env) (s : Store Num) (cid : String)
    (c : Cart Num) (hf : env.findError = none) (hc : findCart s cid = some c)
    (hp : ∀ l ∈ c.products, (findProduct s l.pid).isSome = true) :
    ∃ cartProducts : List (CartProduct Num),
      getCart env s cid = ⟨200, .cartDetail cartProducts cid⟩ ∧
      cartProducts.length = c.products.length ∧
      ∀ (i : Nat) (l : CartLine Num), c.products[i]? = some l →
        ∃ p : Product Num, findProduct s l.pid = some p ∧
          cartProducts[i]? = some { title := p.title, price := p.price,
                                    quantity := l.quantity,
                                    amount := p.price * l.quantity } := by
  have hcast := cast_of_findCart s cid c hc
  obtain ⟨es, hes, hlen, hget⟩ := mapLines_populated s c.products hp
  refine ⟨es, ?_, hlen, hget⟩
  simp [getCart, findById, hcast, hf, hc, populate, hes]

/-- C10, amended statement, at the first cart of `store0`, whose two lines resolve. -/
theorem cart_detail_entries_witness :
    ∃ cartProducts : List (CartProduct Int),
      getCart envOk store0 idC1 = ⟨200, .cartDetail cartProducts idC1⟩ ∧
      cartProducts.length = cartC1.products.length ∧
      ∀ (i : Nat) (l : CartLine Int), cartC1.products[i]? = some l →
        ∃ p : Product Int, findProduct store0 l.pid = some p ∧
          cartProducts[i]? = some { title := p.title, price := p.price,
                                    quantity := l.quantity,
                                    amount := p.price * l.quantity } :=
  cart_detail_entries envOk store0 idC1 cartC1 (by decide) (by decide) (by decide)

/-! ## Two purchase calls on the same cart -/

/-- Three resumptions of a call that nothing interrupts are the handler `purchase`. -/
theorem stepCall_thrice (env : Env) (s : Store Num) (cid : String) :
    stepCall env cid (stepCall env cid (stepCall env cid s .start).1
        (stepCall env cid s .start).2).1
      (stepCall env cid (stepCall env cid s .start).1 (stepCall env cid s .start).2).2
      = ((purchase env s cid).1, .done (purchase env s cid).2) := by
  cases hcast : castObjectId cid with
  | none => simp [stepCall, purchase, findById, hcast]
  | some n =>
  cases hf : env.findError with
  | some m => simp [stepCall, purchase, findById, hcast, hf]
  | none =>
    cases hc : findCart s cid with
    | none => simp [stepCall, purchase, findById, hcast, hf, hc]
    | some c =>
      cases hu : findUser s c.user with
      | none => simp [stepCall, purchase, findById, hcast, hf, hc, populate, hu]
      | some u =>
        cases hk : env.createTicketError with
        | some m =>
          simp [stepCall, purchase, findById, hcast, hf, hc, populate, hu, createTicket, hk]
        | none =>
          cases hd : codeStored s ticketCode with
          | true =>
            simp [stepCall, purchase, findById, hcast, hf, hc, populate, hu, createTicket,
              hk, hd]
          | false =>
            cases hw : env.updateError with
            | some m =>
              simp [stepCall, purchase, findById, hcast, hf, hc, populate, hu, createTicket,
                hk, hd, findByIdAndUpdate, hw]
            | none =>
              simp [stepCall, purchase, findById, hcast, hf, hc, populate, hu, createTicket,
                hk, hd, findByIdAndUpdate, hw]

theorem stored_le_one (s : Store Num) : stored s ≤ 1 := by
  unfold stored; split <;> omega

theorem progress_le_three (a : Call Num) : a.progress ≤ 3 := by
  cases a <;> simp [Call.progress]

/-- A call that has responded in a quiet environment has persisted a ticket exactly
when it has succeeded, and otherwise it has been refused. -/
theorem done_issued (env : Env) (a : Call Num) (hs : a.sound env) (hp : a.progress = 3) :
    (a.succeeded = true ∧ a.issued = 1) ∨ (a.refused env ∧ a.issued = 0) := by
  cases a with
  | start => simp [Call.progress] at hp
  | awaitingTicket d => simp [Call.progress] at hp
  | awaitingUpdate t => simp [Call.progress] at hp
  | done r =>
    rcases hs with h | h
    · left
      refine ⟨h, ?_⟩
      obtain ⟨st, body⟩ := r
      unfold Call.succeeded at h
      split at h
      · rename_i heq
        simp only [Call.done.injEq, Response.mk.injEq] at heq
        obtain ⟨rfl, rfl⟩ := heq
        rfl
      · cases h
    · right
      refine ⟨h, ?_⟩
      unfold Call.refused at h
      rw [h]
      rfl

/-- One resumption of a call in a quiet environment on a stored cart whose user
resolves. -/
theorem stepCall_quiet (env : Env) (cid : String) (s : Store Num) (a : Call Num)
    (hq : env.quiet) (hr : Ready s cid) (hg : a.sound env)
    (hp : 2 ≤ a.progress → stored s = 1) :
    Ready (stepCall env cid s a).1 cid ∧ (stepCall env cid s a).2.sound env ∧
    min 3 (a.progress + 1) ≤ (stepCall env cid s a).2.progress ∧
    stored (stepCall env cid s a).1 + a.issued
      = stored s + (stepCall env cid s a).2.issued ∧
    (stepCall env cid s a).1.tickets.length + a.issued
      = s.tickets.length + (stepCall env cid s a).2.issued ∧
    stored s ≤ stored (stepCall env cid s a).1 ∧
    (2 ≤ (stepCall env cid s a).2.progress → stored (stepCall env cid s a).1 = 1) := by
  obtain ⟨hf, hk, hw⟩ := hq
  obtain ⟨c, u, hc, hu⟩ := hr
  have hcast := cast_of_findCart s cid c hc
  cases a with
  | start =>
    simp only [stepCall, findById, hcast, hf, hc, populate, hu, Option.map_some']
    refine ⟨⟨c, u, hc, hu⟩, rfl, by simp [Call.progress], rfl, rfl, le_refl _, ?_⟩
    simp [Call.progress]
  | awaitingTicket d =>
    have hd : d.code = ticketCode := hg
    cases hs : codeStored s ticketCode with
    | true =>
      simp only [stepCall, createTicket, hk, hd, hs, if_true]
      refine ⟨⟨c, u, hc, hu⟩, Or.inr rfl, by simp [Call.progress], rfl, rfl, le_refl _, ?_⟩
      intro _
      simp [stored, hs]
    | false =>
      simp only [stepCall, createTicket, hk, hd, hs]
      have hnew : stored ({ s with tickets := s.tickets ++
          [({ id := s.tickets.length, code := ticketCode,
              purchase_datetime := d.purchase_datetime, amount := d.amount,
              purchaser := d.purchaser } : Ticket Num)] } : Store Num) = 1 := by
        simp [stored, codeStored, List.any_append]
      have hold : stored s = 0 := by simp [stored, hs]
      refine ⟨⟨c, u, hc, hu⟩, trivial, by simp [Call.progress], ?_, ?_, ?_, ?_⟩
      · simp only [Bool.false_eq_true, if_false]
        rw [hnew, hold]; rfl
      · simp [Call.issued]
      · simp only [Bool.false_eq_true, if_false]
        rw [hnew, hold]; omega
      · intro _
        simp only [Bool.false_eq_true, if_false]
        exact hnew
  | awaitingUpdate t =>
    have hst : stored s = 1 := hp (by simp [Call.progress])
    simp only [stepCall, findByIdAndUpdate, hcast, hw]
    refine ⟨⟨{ c with status := comprado }, u, ?_, hu⟩, Or.inl rfl, by simp [Call.progress],
      rfl, rfl, le_refl _, fun _ => hst⟩
    have h := find?_updateFirst (matchesId cid)
      (fun d : Cart Num => { d with status := comprado }) (fun _ => rfl) s.carts
    unfold findCart at hc ⊢
    simp only [h, hc]
    rfl
  | done r =>
    refine ⟨⟨c, u, hc, hu⟩, hg, by simp [stepCall, Call.progress], rfl, rfl, le_refl _, ?_⟩
    intro _
    exact hp (by simp [Call.progress])

/-- Two calls in quiet environments under any schedule. -/
theorem runTwo_quiet (envA envB : Env) (cid : String) (hA : envA.quiet) (hB : envB.quiet)
    (sched : List Bool) (s : Store Num) (a b : Call Num)
    (hr : Ready s cid) (ha : a.sound envA) (hb : b.sound envB)
    (hpa : 2 ≤ a.progress → stored s = 1) (hpb : 2 ≤ b.progress → stored s = 1) :
    (runTwo envA envB cid sched (s, a, b)).2.1.sound envA ∧
    (runTwo envA envB cid sched (s, a, b)).2.2.sound envB ∧
    min 3 (a.progress + sched.count true)
      ≤ (runTwo envA envB cid sched (s, a, b)).2.1.progress ∧
    min 3 (b.progress + sched.count false)
      ≤ (runTwo envA envB cid sched (s, a, b)).2.2.progress ∧
    stored (runTwo envA envB cid sched (s, a, b)).1 + a.issued + b.issued
      = stored s + (runTwo envA envB cid sched (s, a, b)).2.1.issued
          + (runTwo envA envB cid sched (s, a, b)).2.2.issued ∧
    (runTwo envA envB cid sched (s, a, b)).1.tickets.length + a.issued + b.issued
      = s.tickets.length + (runTwo envA envB cid sched (s, a, b)).2.1.issued
          + (runTwo envA envB cid sched (s, a, b)).2.2.issued ∧
    (2 ≤ (runTwo envA envB cid sched (s, a, b)).2.1.progress →
      stored (runTwo envA envB cid sched (s, a, b)).1 = 1) ∧
    (2 ≤ (runTwo envA envB cid sched (s, a, b)).2.2.progress →
      stored (runTwo envA envB cid sched (s, a, b)).1 = 1) := by
  induction sched generalizing s a b with
  | nil =>
    have h1 := progress_le_three a
    have h2 := progress_le_three b
    refine ⟨ha, hb, ?_, ?_, rfl, rfl, hpa, hpb⟩
    · simp only [runTwo, List.count_nil]; omega
    · simp only [runTwo, List.count_nil]; omega
  | cons x rest ih =>
    cases x with
    | true =>
      obtain ⟨hr1, hg1, hp1, hs1, ht1, hm1, hq1⟩ := stepCall_quiet envA cid s a hA hr ha hpa
      have hone := stored_le_one (stepCall envA cid s a).1
      have hpb1 : 2 ≤ b.progress → stored (stepCall envA cid s a).1 = 1 := by
        intro h; have := hpb h; omega
      obtain ⟨i1, i2, i3, i4, i5, i6, i7, i8⟩ :=
        ih (stepCall envA cid s a).1 (stepCall envA cid s a).2 b hr1 hg1 hb hq1 hpb1
      simp only [runTwo]
      refine ⟨i1, i2, ?_, ?_, ?_, ?_, i7, i8⟩
      · simp only [List.count_cons_self]; omega
      · have : List.count false (true :: rest) = List.count false rest := by simp
        rw [this]; exact i4
      · omega
      · omega
    | false =>
      obtain ⟨hr1, hg1, hp1, hs1, ht1, hm1, hq1⟩ := stepCall_quiet envB cid s b hB hr hb hpb
      have hone := stored_le_one (stepCall envB cid s b).1
      have hpa1 : 2 ≤ a.progress → stored (stepCall envB cid s b).1 = 1 := by
        intro h; have := hpa h; omega
      obtain ⟨i1, i2, i3, i4, i5, i6, i7, i8⟩ :=
        ih (stepCall envB cid s b).1 a (stepCall envB cid s b).2 hr1 ha hg1 hpa1 hq1
      simp only [runTwo]
      refine ⟨i1, i2, ?_, ?_, ?_, ?_, i7, i8⟩
      · have : List.count true (false :: rest) = List.count true rest := by simp
        rw [this]; exact i3
      · simp only [List.count_cons_self]; omega
      · omega
      · omega

/-- C9 fails as stated: in `storeSold`, where the ticket of an earlier purchase is
stored, two purchase calls on the active first cart whose steps alternate both fail:
each answers 500 with the ticket store's refusal of the duplicate code. -/
theorem overlapping_purchases_both_fail :
    statusOf storeSold idC1 = some "active" ∧
    runBoth envOk envOk idC1 overlapping storeSold
      = (storeSold,
         .done ⟨500, .failure "E11000 duplicate key error"⟩,
         .done ⟨500, .failure "E11000 duplicate key error"⟩) := by
  decide

/-- C9 as amended: for every pair of purchase calls in flight on the same stored cart
whose user resolves, when the store fails no operation, under every schedule that lets
both calls run to their response (three resumptions each): the two never both succeed;
if no ticket with the code of the source is stored, exactly one call answers 201 with a
ticket and the other answers 500 with the ticket store's refusal of the duplicate code
(not a cart-not-active error), and one ticket is added; if such a ticket is stored, both
calls are refused and no ticket is added. -/
theorem concurrent_purchases (envA envB : Env) (s : Store Num) (cid : String)
    (c : Cart Num) (u : User) (sched : List Bool)
    (hA : envA.quiet) (hB : envB.quiet)
    (hc : findCart s cid = some c) (hu : findUser s c.user = some u)
    (h1 : 3 ≤ sched.count true) (h2 : 3 ≤ sched.count false) :
    ¬ ((runBoth envA envB cid sched s).2.1.succeeded = true ∧
       (runBoth envA envB cid sched s).2.2.succeeded = true) ∧
    (codeStored s ticketCode = false →
      (((runBoth envA envB cid sched s).2.1.succeeded = true ∧
          (runBoth envA envB cid sched s).2.2.refused envB) ∨
        ((runBoth envA envB cid sched s).2.1.refused envA ∧
          (runBoth envA envB cid sched s).2.2.succeeded = true)) ∧
      (runBoth envA envB cid sched s).1.tickets.length = s.tickets.length + 1) ∧
    (codeStored s ticketCode = true →
      (runBoth envA envB cid sched s).2.1.refused envA ∧
      (runBoth envA envB cid sched s).2.2.refused envB ∧
      (runBoth envA envB cid sched s).1.tickets.length = s.tickets.length) := by
  obtain ⟨g1, g2, p1, p2, e1, e2, q1, _⟩ := runTwo_quiet envA envB cid hA hB sched s
    .start .start ⟨c, u, hc, hu⟩ trivial trivial
    (by simp [Call.progress]) (by simp [Call.progress])
  have l1 := progress_le_three (runTwo envA envB cid sched (s, .start, .start)).2.1
  have l2 := progress_le_three (runTwo envA envB cid sched (s, .start, .start)).2.2
  have s0 : (Call.start : Call Num).progress = 0 := rfl
  have i0 : (Call.start : Call Num).issued = 0 := rfl
  simp only [s0, i0] at p1 p2 e1 e2
  have d1 := done_issued envA _ g1 (by omega)
  have d2 := done_issued envB _ g2 (by omega)
  have hst := q1 (by omega)
  have hlt := stored_le_one s
  unfold runBoth
  refine ⟨?_, ?_, ?_⟩
  · rintro ⟨x1, x2⟩
    rcases d1 with ⟨_, y1⟩ | ⟨r1, _⟩
    · rcases d2 with ⟨_, y2⟩ | ⟨r2, _⟩
      · omega
      · rw [r2] at x2; cases x2
    · rw [r1] at x1; cases x1
  · intro hd
    have h0 : stored s = 0 := by simp [stored, hd]
    rcases d1 with ⟨x1, y1⟩ | ⟨r1, y1⟩ <;> rcases d2 with ⟨x2, y2⟩ | ⟨r2, y2⟩
    · omega
    · exact ⟨Or.inl ⟨x1, r2⟩, by omega⟩
    · exact ⟨Or.inr ⟨r1, x2⟩, by omega⟩
    · omega
  · intro hd
    have h0 : stored s = 1 := by simp [stored, hd]
    rcases d1 with ⟨x1, y1⟩ | ⟨r1, y1⟩ <;> rcases d2 with ⟨x2, y2⟩ | ⟨r2, y2⟩
    · omega
    · omega
    · omega
    · exact ⟨r1, r2, by omega⟩

/-- C9, amended statement, at the first cart of `store0` under the alternating
schedule. -/
theorem concurrent_purchases_witness :
    ¬ ((runBoth envOk envOk idC1 overlapping store0).2.1.succeeded = true ∧
       (runBoth envOk envOk idC1 overlapping store0).2.2.succeeded = true) ∧
    (codeStored store0 ticketCode = false →
      (((runBoth envOk envOk idC1 overlapping store0).2.1.succeeded = true ∧
          (runBoth envOk envOk idC1 overlapping store0).2.2.refused envOk) ∨
        ((runBoth envOk envOk idC1 overlapping store0).2.1.refused envOk ∧
          (runBoth envOk envOk idC1 overlapping store0).2.2.succeeded = true)) ∧
      (runBoth envOk envOk idC1 overlapping store0).1.tickets.length
        = store0.tickets.length + 1) ∧
    (codeStored store0 ticketCode = true →
      (runBoth envOk envOk idC1 overlapping store0).2.1.refused envOk ∧
      (runBoth envOk envOk idC1 overlapping store0).2.2.refused envOk ∧
      (runBoth envOk envOk idC1 overlapping store0).1.tickets.length
        = store0.tickets.length) :=
  concurrent_purchases envOk envOk store0 idC1 cartC1 ⟨0xb1, "u1@example.com"⟩
    overlapping ⟨rfl, rfl, rfl⟩ ⟨rfl, rfl, rfl⟩ (by decide) (by decide) (by decide)
    (by decide)
end CartsRoutes
